import Mathlib

/-!
Verification of `src/static/js/socket.js` from tristanh616/flashback.

The file is a thin socket.io client wrapper: one module-level connection
(`const socket = io();`) and four functions (`joinGame`, `sendAnswer`,
`validateCorrectAnswers`, `endGame`), each of which builds a payload object
and emits it on the shared socket.

Shallow embedding: JavaScript values that can appear as arguments or payload
fields are modelled by the inductive type `JVal` (strings, numbers, booleans,
null/undefined, arrays, objects).  A payload object is an ordered association
list of field names to values (field insertion order is observable in JS and
in the serialized message).  An emitted message pairs an event name with a
payload.  The socket records the ordered list of messages emitted on it; the
module state additionally counts how many connections `io()` has created, so
that "exactly one connection, created at load time" is a provable statement.
Each of the four functions is embedded as a state transformer returning
`Unit × ModuleState`: JavaScript functions with no `return` statement return
`undefined`, modelled as the unique value of `Unit`; the state component
records the messages handed to the transport.
-/

/-- A JavaScript value, as far as this component can observe one. -/
inductive JVal where
  | str : String → JVal
  | num : Int → JVal
  | bool : Bool → JVal
  | null : JVal
  | undef : JVal
  | arr : List JVal → JVal
  | obj : List (String × JVal) → JVal

/-- A message emitted on the socket: event name plus payload object,
the payload being an ordered list of (field name, value) pairs exactly as
written in the object literal in the source. -/
structure Message where
  event : String
  payload : List (String × JVal)

/-- Look up a field of a payload object (first occurrence, as JS would). -/
def fieldOf (p : List (String × JVal)) (k : String) : Option JVal :=
  match p with
  | [] => none
  | (k', v) :: rest => if k' = k then some v else fieldOf rest k

/-- The connection object returned by `io()`: it records, in order, every
message emitted on it. -/
structure Socket where
  sent : List Message

/-- `socket.emit(event, payload)`: hand one message to the transport.
Fire-and-forget: the only effect visible in this component is that the
message is appended to the connection's outbound sequence. -/
def Socket.emit (s : Socket) (event : String) (payload : List (String × JVal)) : Socket :=
  ⟨s.sent ++ [⟨event, payload⟩]⟩

/-- `io()`: create a fresh connection with nothing sent yet. -/
def io : Socket := ⟨[]⟩

/-- The state of the loaded module: the number of connections `io()` has
been called to create, and the single module-scoped `socket` binding. -/
structure ModuleState where
  socketsCreated : Nat
  socket : Socket

/-- Line 1 of the source, run once at module load: `const socket = io();`.
Exactly one connection is created. -/
def moduleLoad : ModuleState := ⟨1, io⟩

/-- `function joinGame(gameId, playerName)`:
`socket.emit('join', { game_id: gameId, player: playerName });`
No return statement, so the value component is `()`. -/
def joinGame (gameId playerName : JVal) (st : ModuleState) : Unit × ModuleState :=
  ((), ⟨st.socketsCreated, st.socket.emit "join" [("game_id", gameId), ("player", playerName)]⟩)

/-- `function sendAnswer(gameId, playerName, answer)`:
`socket.emit('submit_answer', { game_id: gameId, player: playerName, answer: answer });` -/
def sendAnswer (gameId playerName answer : JVal) (st : ModuleState) : Unit × ModuleState :=
  ((), ⟨st.socketsCreated,
        st.socket.emit "submit_answer"
          [("game_id", gameId), ("player", playerName), ("answer", answer)]⟩)

/-- `function validateCorrectAnswers(gameId, correctPlayers)`:
`socket.emit('validate_answers', { game_id: gameId, correct_players: correctPlayers });` -/
def validateCorrectAnswers (gameId correctPlayers : JVal) (st : ModuleState) : Unit × ModuleState :=
  ((), ⟨st.socketsCreated,
        st.socket.emit "validate_answers"
          [("game_id", gameId), ("correct_players", correctPlayers)]⟩)

/-- `function endGame(gameId)`:
`socket.emit('end_game', { game_id: gameId });` -/
def endGame (gameId : JVal) (st : ModuleState) : Unit × ModuleState :=
  ((), ⟨st.socketsCreated, st.socket.emit "end_game" [("game_id", gameId)]⟩)

/-- The messages a call emitted: the outbound sequence after the call with
the sequence before the call removed from the front. -/
def emittedBy (st st' : ModuleState) : List Message :=
  st'.socket.sent.drop st.socket.sent.length

/-- If a call only did `socket.emit e p` on the module socket, the messages it
emitted are exactly `[⟨e, p⟩]`. -/
theorem emittedBy_emit (st : ModuleState) (c : Nat) (e : String)
    (p : List (String × JVal)) :
    emittedBy st ⟨c, st.socket.emit e p⟩ = [⟨e, p⟩] := by
  simp [emittedBy, Socket.emit]

/-- C1: for every (gameId, playerName) and every module state, `joinGame`
hands exactly one message to the transport: event `'join'`, payload
`{game_id: gameId, player: playerName}`, appended to whatever was already
sent; no other message is emitted. -/
theorem joinGame_emits_exactly_one_join (gameId playerName : JVal)
    (st : ModuleState) :
    (joinGame gameId playerName st).2.socket.sent =
      st.socket.sent ++
        [⟨"join", [("game_id", gameId), ("player", playerName)]⟩] :=
  rfl

/-- C2: for every (gameId, playerName, answer) and every module state,
`sendAnswer` emits exactly one `'submit_answer'` message with payload
`{game_id: gameId, player: playerName, answer: answer}`, and the `answer`
field of the emitted payload is the argument itself, unmodified. -/
theorem sendAnswer_emits_exactly_one_submit_answer
    (gameId playerName answer : JVal) (st : ModuleState) :
    (sendAnswer gameId playerName answer st).2.socket.sent =
      st.socket.sent ++
        [⟨"submit_answer",
          [("game_id", gameId), ("player", playerName), ("answer", answer)]⟩] ∧
    fieldOf [("game_id", gameId), ("player", playerName), ("answer", answer)]
        "answer" = some answer := by
  exact ⟨rfl, by simp [fieldOf]⟩

/-- C3: for every (gameId, correctPlayers) and every module state,
`validateCorrectAnswers` emits exactly one `'validate_answers'` message with
payload `{game_id: gameId, correct_players: correctPlayers}`; the
`correct_players` field is the very argument value, so for an array argument
its contents and order are preserved. -/
theorem validateCorrectAnswers_emits_exactly_one_validate_answers
    (gameId correctPlayers : JVal) (st : ModuleState) :
    (validateCorrectAnswers gameId correctPlayers st).2.socket.sent =
      st.socket.sent ++
        [⟨"validate_answers",
          [("game_id", gameId), ("correct_players", correctPlayers)]⟩] ∧
    fieldOf [("game_id", gameId), ("correct_players", correctPlayers)]
        "correct_players" = some correctPlayers := by
  exact ⟨rfl, by simp [fieldOf]⟩

/-- C4: for every gameId and every module state, `endGame` emits exactly one
`'end_game'` message whose payload is `{game_id: gameId}`; the list of field
names of that payload is exactly `["game_id"]`, so no other field is
present. -/
theorem endGame_emits_exactly_one_end_game (gameId : JVal)
    (st : ModuleState) :
    (endGame gameId st).2.socket.sent =
      st.socket.sent ++ [⟨"end_game", [("game_id", gameId)]⟩] ∧
    (Message.payload ⟨"end_game", [("game_id", gameId)]⟩).map Prod.fst =
      ["game_id"] := by
  exact ⟨rfl, rfl⟩

/-- C5: invariant over all four operations: for any arguments and any module
state, every message emitted by the call carries a `game_id` payload field
equal to the call's `gameId` argument (each map below lists the `game_id`
field of each emitted message, and it is `some gameId` in all cases). -/
theorem every_emitted_message_carries_game_id
    (gameId playerName answer correctPlayers : JVal) (st : ModuleState) :
    (emittedBy st (joinGame gameId playerName st).2).map
        (fun m => fieldOf m.payload "game_id") = [some gameId] ∧
    (emittedBy st (sendAnswer gameId playerName answer st).2).map
        (fun m => fieldOf m.payload "game_id") = [some gameId] ∧
    (emittedBy st (validateCorrectAnswers gameId correctPlayers st).2).map
        (fun m => fieldOf m.payload "game_id") = [some gameId] ∧
    (emittedBy st (endGame gameId st).2).map
        (fun m => fieldOf m.payload "game_id") = [some gameId] := by
  refine ⟨?_, ?_, ?_, ?_⟩ <;>
    simp [joinGame, sendAnswer, validateCorrectAnswers, endGame,
      emittedBy_emit, fieldOf]

/-- C6: no validation and no local error: for every argument value — the
universal quantification over `JVal` includes `JVal.str ""` — each operation's
whole result is exactly the pair of the unit return value and the state with
the arguments forwarded verbatim into the payload: no branch inspects the
arguments, no transformation is applied, and the call completes normally. -/
theorem ops_forward_arguments_as_is_without_error
    (gameId playerName answer correctPlayers : JVal) (st : ModuleState) :
    joinGame gameId playerName st =
      ((), ⟨st.socketsCreated,
            ⟨st.socket.sent ++
              [⟨"join", [("game_id", gameId), ("player", playerName)]⟩]⟩⟩) ∧
    sendAnswer gameId playerName answer st =
      ((), ⟨st.socketsCreated,
            ⟨st.socket.sent ++
              [⟨"submit_answer",
                [("game_id", gameId), ("player", playerName),
                 ("answer", answer)]⟩]⟩⟩) ∧
    validateCorrectAnswers gameId correctPlayers st =
      ((), ⟨st.socketsCreated,
            ⟨st.socket.sent ++
              [⟨"validate_answers",
                [("game_id", gameId),
                 ("correct_players", correctPlayers)]⟩]⟩⟩) ∧
    endGame gameId st =
      ((), ⟨st.socketsCreated,
            ⟨st.socket.sent ++ [⟨"end_game", [("game_id", gameId)]⟩]⟩⟩) :=
  ⟨rfl, rfl, rfl, rfl⟩

/-- C7: no deduplication: calling any of the four operations twice in
sequence with identical arguments appends two independent copies of the
message to the outbound sequence; the second emission is not suppressed. -/
theorem ops_emit_twice_on_repeated_call
    (gameId playerName answer correctPlayers : JVal) (st : ModuleState) :
    (joinGame gameId playerName (joinGame gameId playerName st).2).2.socket.sent =
      st.socket.sent ++
        [⟨"join", [("game_id", gameId), ("player", playerName)]⟩,
         ⟨"join", [("game_id", gameId), ("player", playerName)]⟩] ∧
    (sendAnswer gameId playerName answer
        (sendAnswer gameId playerName answer st).2).2.socket.sent =
      st.socket.sent ++
        [⟨"submit_answer",
          [("game_id", gameId), ("player", playerName), ("answer", answer)]⟩,
         ⟨"submit_answer",
          [("game_id", gameId), ("player", playerName), ("answer", answer)]⟩] ∧
    (validateCorrectAnswers gameId correctPlayers
        (validateCorrectAnswers gameId correctPlayers st).2).2.socket.sent =
      st.socket.sent ++
        [⟨"validate_answers",
          [("game_id", gameId), ("correct_players", correctPlayers)]⟩,
         ⟨"validate_answers",
          [("game_id", gameId), ("correct_players", correctPlayers)]⟩] ∧
    (endGame gameId (endGame gameId st).2).2.socket.sent =
      st.socket.sent ++
        [⟨"end_game", [("game_id", gameId)]⟩,
         ⟨"end_game", [("game_id", gameId)]⟩] := by
  refine ⟨?_, ?_, ?_, ?_⟩ <;>
    simp [joinGame, sendAnswer, validateCorrectAnswers, endGame, Socket.emit]

/-- C8: every call to any of the four operations returns the unit value —
the JavaScript functions have no `return` statement, so the caller observes
no result value and no response from the send. -/
theorem ops_return_no_result
    (gameId playerName answer correctPlayers : JVal) (st : ModuleState) :
    (joinGame gameId playerName st).1 = () ∧
    (sendAnswer gameId playerName answer st).1 = () ∧
    (validateCorrectAnswers gameId correctPlayers st).1 = () ∧
    (endGame gameId st).1 = () :=
  ⟨rfl, rfl, rfl, rfl⟩

/-- C9: module load (`const socket = io();`) creates exactly one connection,
and every operation leaves the number of connections unchanged and touches
the shared state only by appending its emitted messages to that one
connection's outbound sequence. -/
theorem single_connection_created_once_and_shared
    (gameId playerName answer correctPlayers : JVal) (st : ModuleState) :
    moduleLoad.socketsCreated = 1 ∧
    (joinGame gameId playerName st).2.socketsCreated = st.socketsCreated ∧
    (sendAnswer gameId playerName answer st).2.socketsCreated =
      st.socketsCreated ∧
    (validateCorrectAnswers gameId correctPlayers st).2.socketsCreated =
      st.socketsCreated ∧
    (endGame gameId st).2.socketsCreated = st.socketsCreated ∧
    (joinGame gameId playerName st).2.socket.sent =
      st.socket.sent ++ emittedBy st (joinGame gameId playerName st).2 ∧
    (sendAnswer gameId playerName answer st).2.socket.sent =
      st.socket.sent ++
        emittedBy st (sendAnswer gameId playerName answer st).2 ∧
    (validateCorrectAnswers gameId correctPlayers st).2.socket.sent =
      st.socket.sent ++
        emittedBy st (validateCorrectAnswers gameId correctPlayers st).2 ∧
    (endGame gameId st).2.socket.sent =
      st.socket.sent ++ emittedBy st (endGame gameId st).2 := by
  refine ⟨rfl, rfl, rfl, rfl, rfl, ?_, ?_, ?_, ?_⟩ <;>
    simp [joinGame, sendAnswer, validateCorrectAnswers, endGame,
      emittedBy, Socket.emit]

/-- C10: determinism: two calls to the same operation with the same
arguments, from any two prior states, emit identical messages; and the event
name of what each operation emits is fixed by the operation alone
(`'join'`, `'submit_answer'`, `'validate_answers'`, `'end_game'`),
independent of the argument values. -/
theorem ops_deterministic_with_fixed_event_names
    (gameId playerName answer correctPlayers : JVal) (st st' : ModuleState) :
    emittedBy st (joinGame gameId playerName st).2 =
      emittedBy st' (joinGame gameId playerName st').2 ∧
    emittedBy st (sendAnswer gameId playerName answer st).2 =
      emittedBy st' (sendAnswer gameId playerName answer st').2 ∧
    emittedBy st (validateCorrectAnswers gameId correctPlayers st).2 =
      emittedBy st' (validateCorrectAnswers gameId correctPlayers st').2 ∧
    emittedBy st (endGame gameId st).2 =
      emittedBy st' (endGame gameId st').2 ∧
    (emittedBy st (joinGame gameId playerName st).2).map Message.event =
      ["join"] ∧
    (emittedBy st (sendAnswer gameId playerName answer st).2).map
      Message.event = ["submit_answer"] ∧
    (emittedBy st (validateCorrectAnswers gameId correctPlayers st).2).map
      Message.event = ["validate_answers"] ∧
    (emittedBy st (endGame gameId st).2).map Message.event = ["end_game"] := by
  refine ⟨?_, ?_, ?_, ?_, ?_, ?_, ?_, ?_⟩ <;>
    simp [joinGame, sendAnswer, validateCorrectAnswers, endGame,
      emittedBy_emit]
